import Mathlib

/-!
Verification development for the osTicket CLI's API client and configuration
resolver (Go sources: `api` package and `internal/config/config.go`).

The Go code is shallowly embedded:
* JSON documents become the inductive `Json` (numbers are modelled as `Int`;
  every numeric field used by the client is integral).
* `encoding/json.Unmarshal` into each concrete Go target type becomes an
  explicit `decode…` function returning `Option`: `none` models a returned
  error.  The modelled semantics follows Go: unknown object keys are ignored,
  keys match struct tags case-insensitively (all tags here are lowercase, so a
  key matches iff its lower-casing equals the tag), a later duplicate key
  overwrites an earlier one, JSON `null` leaves the (zero-valued) target
  unchanged, a type mismatch on a matched key is an error, and `null` decodes
  into a slice as the empty slice.
* The HTTP layer becomes a function `net : HttpReq → Option Json`: `none`
  models a transport failure, `some body` models a reply whose body is valid
  JSON.  The 30-second timeout, a non-JSON reply body and I/O errors all
  collapse into these two outcomes.
* Each `fmt.Errorf` site becomes a constructor of `ClientErr`.
-/

/-- JSON values.  Numbers carry `Int` (all numeric fields of the API are
integral); objects keep their fields in document order, as Go's decoder
processes them. -/
inductive Json : Type where
  | null : Json
  | bool : Bool → Json
  | num : Int → Json
  | str : String → Json
  | arr : List Json → Json
  | obj : List (String × Json) → Json

/-- Go `json.Unmarshal` into a fresh `int`: `null` keeps the zero value,
a number is taken as-is, anything else is a type error. -/
def decodeInt : Json → Option Int
  | .null => some 0
  | .num n => some n
  | _ => none

/-- Go `json.Unmarshal` into a fresh `string`. -/
def decodeString : Json → Option String
  | .null => some ""
  | .str s => some s
  | _ => none

/-- Go `json.Unmarshal` into a fresh slice `[]T`: `null` gives the nil slice,
an array decodes elementwise, anything else is a type error. -/
def decodeList (dec : Json → Option α) : Json → Option (List α)
  | .null => some []
  | .arr xs => xs.mapM dec
  | _ => none

/-- ASCII lower-casing (all json tags of this API are ASCII). -/
def lowerChar (c : Char) : Char :=
  if 65 ≤ c.toNat && c.toNat ≤ 90 then Char.ofNat (c.toNat + 32) else c

def lowerStr (s : String) : String :=
  String.mk (s.data.map lowerChar)

/-- A JSON object key populates the struct field with this tag: Go matches the
tag exactly or case-insensitively, and every tag in this API is a lowercase
ASCII string, so a key matches iff it lower-cases to the tag. -/
def keyMatches (key tag : String) : Bool :=
  lowerStr key == tag

/-- The `Ticket` (Go struct `api.Ticket`), field for field, with Go zero values. -/
structure Ticket where
  TicketID : Int := 0
  TicketPID : Int := 0
  Number : String := ""
  UserID : Int := 0
  UserEmailID : Int := 0
  StatusID : Int := 0
  DeptID : Int := 0
  SLAID : Int := 0
  TopicID : Int := 0
  StaffID : Int := 0
  TeamID : Int := 0
  EmailID : Int := 0
  LockID : Int := 0
  Flags : Int := 0
  /-- Go field `Sort` (a Lean keyword, hence the suffix). -/
  SortVal : Int := 0
  Subject : String := ""
  Title : String := ""
  Body : String := ""
  IPAddress : String := ""
  Source : String := ""
  SourceExtra : String := ""
  IsOverdue : Int := 0
  IsAnswered : Int := 0
  DueDate : String := ""
  EstDueDate : String := ""
  Reopened : String := ""
  Closed : String := ""
  LastUpdate : String := ""
  Created : String := ""
  Updated : String := ""
  deriving DecidableEq

/-- One step of decoding a JSON object into a `Ticket`: route the key to the
field whose json tag it matches (unknown keys are ignored). -/
def ticketSetField (t : Ticket) (key : String) (v : Json) : Option Ticket :=
  if keyMatches key "ticket_id" then (decodeInt v).map (fun n => { t with TicketID := n })
  else if keyMatches key "ticket_pid" then (decodeInt v).map (fun n => { t with TicketPID := n })
  else if keyMatches key "number" then (decodeString v).map (fun s => { t with Number := s })
  else if keyMatches key "user_id" then (decodeInt v).map (fun n => { t with UserID := n })
  else if keyMatches key "user_email_id" then (decodeInt v).map (fun n => { t with UserEmailID := n })
  else if keyMatches key "status_id" then (decodeInt v).map (fun n => { t with StatusID := n })
  else if keyMatches key "dept_id" then (decodeInt v).map (fun n => { t with DeptID := n })
  else if keyMatches key "sla_id" then (decodeInt v).map (fun n => { t with SLAID := n })
  else if keyMatches key "topic_id" then (decodeInt v).map (fun n => { t with TopicID := n })
  else if keyMatches key "staff_id" then (decodeInt v).map (fun n => { t with StaffID := n })
  else if keyMatches key "team_id" then (decodeInt v).map (fun n => { t with TeamID := n })
  else if keyMatches key "email_id" then (decodeInt v).map (fun n => { t with EmailID := n })
  else if keyMatches key "lock_id" then (decodeInt v).map (fun n => { t with LockID := n })
  else if keyMatches key "flags" then (decodeInt v).map (fun n => { t with Flags := n })
  else if keyMatches key "sort" then (decodeInt v).map (fun n => { t with SortVal := n })
  else if keyMatches key "subject" then (decodeString v).map (fun s => { t with Subject := s })
  else if keyMatches key "title" then (decodeString v).map (fun s => { t with Title := s })
  else if keyMatches key "body" then (decodeString v).map (fun s => { t with Body := s })
  else if keyMatches key "ip_address" then (decodeString v).map (fun s => { t with IPAddress := s })
  else if keyMatches key "source" then (decodeString v).map (fun s => { t with Source := s })
  else if keyMatches key "source_extra" then (decodeString v).map (fun s => { t with SourceExtra := s })
  else if keyMatches key "isoverdue" then (decodeInt v).map (fun n => { t with IsOverdue := n })
  else if keyMatches key "isanswered" then (decodeInt v).map (fun n => { t with IsAnswered := n })
  else if keyMatches key "duedate" then (decodeString v).map (fun s => { t with DueDate := s })
  else if keyMatches key "est_duedate" then (decodeString v).map (fun s => { t with EstDueDate := s })
  else if keyMatches key "reopened" then (decodeString v).map (fun s => { t with Reopened := s })
  else if keyMatches key "closed" then (decodeString v).map (fun s => { t with Closed := s })
  else if keyMatches key "lastupdate" then (decodeString v).map (fun s => { t with LastUpdate := s })
  else if keyMatches key "created" then (decodeString v).map (fun s => { t with Created := s })
  else if keyMatches key "updated" then (decodeString v).map (fun s => { t with Updated := s })
  else some t

/-- Go `json.Unmarshal` into a fresh `Ticket`. -/
def decodeTicket : Json → Option Ticket
  | .null => some {}
  | .obj kvs => kvs.foldlM (fun t kv => ticketSetField t kv.1 kv.2) {}
  | _ => none

/-- The `TicketData` (Go struct `api.TicketData`): the canonical
`{total, tickets : [][]Ticket}` shape. -/
structure TicketData where
  Total : Int := 0
  Tickets : List (List Ticket) := []
  deriving DecidableEq

def ticketDataSetField (d : TicketData) (key : String) (v : Json) : Option TicketData :=
  if keyMatches key "total" then (decodeInt v).map (fun n => { d with Total := n })
  else if keyMatches key "tickets" then
    (decodeList (decodeList decodeTicket) v).map (fun ts => { d with Tickets := ts })
  else some d

/-- Go `json.Unmarshal` into a fresh `TicketData` (`tickets : [][]Ticket`). -/
def decodeTicketData : Json → Option TicketData
  | .null => some {}
  | .obj kvs => kvs.foldlM (fun d kv => ticketDataSetField d kv.1 kv.2) {}
  | _ => none

/-- The anonymous flat struct in `GetTicket`: `{total, tickets : []Ticket}`. -/
structure FlatTicketData where
  Total : Int := 0
  Tickets : List Ticket := []
  deriving DecidableEq

def flatTicketDataSetField (d : FlatTicketData) (key : String) (v : Json) : Option FlatTicketData :=
  if keyMatches key "total" then (decodeInt v).map (fun n => { d with Total := n })
  else if keyMatches key "tickets" then
    (decodeList decodeTicket v).map (fun ts => { d with Tickets := ts })
  else some d

/-- Go `json.Unmarshal` into the flat `{total, tickets : []Ticket}` struct. -/
def decodeFlatTicketData : Json → Option FlatTicketData
  | .null => some {}
  | .obj kvs => kvs.foldlM (fun d kv => flatTicketDataSetField d kv.1 kv.2) {}
  | _ => none

/-- The anonymous single-object struct in `GetTicket`: `{total, ticket : Ticket}`. -/
structure SingleTicketData where
  Total : Int := 0
  Ticket : Ticket := {}
  deriving DecidableEq

def singleTicketDataSetField (d : SingleTicketData) (key : String) (v : Json) : Option SingleTicketData :=
  if keyMatches key "total" then (decodeInt v).map (fun n => { d with Total := n })
  else if keyMatches key "ticket" then
    (decodeTicket v).map (fun t => { d with Ticket := t })
  else some d

/-- Go `json.Unmarshal` into the single-object `{total, ticket}` struct. -/
def decodeSingleTicketData : Json → Option SingleTicketData
  | .null => some {}
  | .obj kvs => kvs.foldlM (fun d kv => singleTicketDataSetField d kv.1 kv.2) {}
  | _ => none

/-- The `User` (Go struct `api.User`). -/
structure User where
  UserID : Int := 0
  Name : String := ""
  Created : String := ""
  deriving DecidableEq

def userSetField (u : User) (key : String) (v : Json) : Option User :=
  if keyMatches key "user_id" then (decodeInt v).map (fun n => { u with UserID := n })
  else if keyMatches key "name" then (decodeString v).map (fun s => { u with Name := s })
  else if keyMatches key "created" then (decodeString v).map (fun s => { u with Created := s })
  else some u

/-- Go `json.Unmarshal` into a fresh `User`. -/
def decodeUser : Json → Option User
  | .null => some {}
  | .obj kvs => kvs.foldlM (fun u kv => userSetField u kv.1 kv.2) {}
  | _ => none

/-- The `UserData` (Go struct `api.UserData`). -/
structure UserData where
  Total : Int := 0
  Users : List User := []
  deriving DecidableEq

def userDataSetField (d : UserData) (key : String) (v : Json) : Option UserData :=
  if keyMatches key "total" then (decodeInt v).map (fun n => { d with Total := n })
  else if keyMatches key "users" then (decodeList decodeUser v).map (fun us => { d with Users := us })
  else some d

/-- Go `json.Unmarshal` into a fresh `UserData`. -/
def decodeUserData : Json → Option UserData
  | .null => some {}
  | .obj kvs => kvs.foldlM (fun d kv => userDataSetField d kv.1 kv.2) {}
  | _ => none

/-- The `Department` (Go struct `api.Department`). -/
structure Department where
  ID : Int := 0
  Name : String := ""
  deriving DecidableEq

def departmentSetField (d : Department) (key : String) (v : Json) : Option Department :=
  if keyMatches key "id" then (decodeInt v).map (fun n => { d with ID := n })
  else if keyMatches key "name" then (decodeString v).map (fun s => { d with Name := s })
  else some d

def decodeDepartment : Json → Option Department
  | .null => some {}
  | .obj kvs => kvs.foldlM (fun d kv => departmentSetField d kv.1 kv.2) {}
  | _ => none

/-- The `DepartmentData` (Go struct `api.DepartmentData`). -/
structure DepartmentData where
  Total : Int := 0
  Departments : List Department := []
  deriving DecidableEq

def departmentDataSetField (d : DepartmentData) (key : String) (v : Json) : Option DepartmentData :=
  if keyMatches key "total" then (decodeInt v).map (fun n => { d with Total := n })
  else if keyMatches key "departments" then
    (decodeList decodeDepartment v).map (fun ds => { d with Departments := ds })
  else some d

def decodeDepartmentData : Json → Option DepartmentData
  | .null => some {}
  | .obj kvs => kvs.foldlM (fun d kv => departmentDataSetField d kv.1 kv.2) {}
  | _ => none

/-- The `Topic` (Go struct `api.Topic`). -/
structure Topic where
  TopicID : Int := 0
  Topic : String := ""
  deriving DecidableEq

def topicSetField (t : Topic) (key : String) (v : Json) : Option Topic :=
  if keyMatches key "topic_id" then (decodeInt v).map (fun n => { t with TopicID := n })
  else if keyMatches key "topic" then (decodeString v).map (fun s => { t with Topic := s })
  else some t

def decodeTopic : Json → Option Topic
  | .null => some {}
  | .obj kvs => kvs.foldlM (fun t kv => topicSetField t kv.1 kv.2) {}
  | _ => none

/-- The `TopicData` (Go struct `api.TopicData`). -/
structure TopicData where
  Total : Int := 0
  Topics : List Topic := []
  deriving DecidableEq

def topicDataSetField (d : TopicData) (key : String) (v : Json) : Option TopicData :=
  if keyMatches key "total" then (decodeInt v).map (fun n => { d with Total := n })
  else if keyMatches key "topics" then (decodeList decodeTopic v).map (fun ts => { d with Topics := ts })
  else some d

def decodeTopicData : Json → Option TopicData
  | .null => some {}
  | .obj kvs => kvs.foldlM (fun d kv => topicDataSetField d kv.1 kv.2) {}
  | _ => none

/-- The `SLA` (Go struct `api.SLA`). -/
structure SLA where
  ID : Int := 0
  Name : String := ""
  GracePeriod : Int := 0
  deriving DecidableEq

def slaSetField (s : SLA) (key : String) (v : Json) : Option SLA :=
  if keyMatches key "id" then (decodeInt v).map (fun n => { s with ID := n })
  else if keyMatches key "name" then (decodeString v).map (fun x => { s with Name := x })
  else if keyMatches key "grace_period" then (decodeInt v).map (fun n => { s with GracePeriod := n })
  else some s

def decodeSLA : Json → Option SLA
  | .null => some {}
  | .obj kvs => kvs.foldlM (fun s kv => slaSetField s kv.1 kv.2) {}
  | _ => none

/-- The `SLAData` (Go struct `api.SLAData`). -/
structure SLAData where
  Total : Int := 0
  SLA : List SLA := []
  deriving DecidableEq

def slaDataSetField (d : SLAData) (key : String) (v : Json) : Option SLAData :=
  if keyMatches key "total" then (decodeInt v).map (fun n => { d with Total := n })
  else if keyMatches key "sla" then (decodeList decodeSLA v).map (fun ss => { d with SLA := ss })
  else some d

def decodeSLAData : Json → Option SLAData
  | .null => some {}
  | .obj kvs => kvs.foldlM (fun d kv => slaDataSetField d kv.1 kv.2) {}
  | _ => none

/-- The `Response` (Go struct `api.Response`): the response envelope.  `Data`
models the `json.RawMessage` field: `none` is the nil raw message (key absent
from the envelope), `some j` holds the raw payload, including `some .null`
when the envelope carried a literal `null`.  `Time` is Go's `float64` field,
restricted to the integral numbers representable in this model. -/
structure Response where
  Status : String := ""
  Message : String := ""
  Time : Int := 0
  Data : Option Json := none

def responseSetField (r : Response) (key : String) (v : Json) : Option Response :=
  if keyMatches key "status" then (decodeString v).map (fun s => { r with Status := s })
  else if keyMatches key "message" then (decodeString v).map (fun s => { r with Message := s })
  else if keyMatches key "time" then (decodeInt v).map (fun n => { r with Time := n })
  else if keyMatches key "data" then some { r with Data := some v }
  else some r

/-- Go `json.Unmarshal` of the response body into a fresh `Response`.  A
`data` key of any JSON value (including `null`) is captured raw, as Go's
`RawMessage.UnmarshalJSON` does. -/
def decodeResponse : Json → Option Response
  | .null => some {}
  | .obj kvs => kvs.foldlM (fun r kv => responseSetField r kv.1 kv.2) {}
  | _ => none

/-- The `Request` (Go struct `api.Request`): the request envelope.  `Parameters`
models the Go `map[string]interface{}` as an association list (written in the
source's literal order). -/
structure Request where
  Query : String
  Condition : String
  /-- Go field `Sort` (a Lean keyword, hence the suffix); `""` is the
  zero value omitted by `omitempty`. -/
  SortVal : String := ""
  Parameters : List (String × Json) := []

/-- Insertion sort of object fields by key, mirroring `encoding/json`'s
sorted marshalling of Go maps. -/
def insertField (p : String × Json) : List (String × Json) → List (String × Json)
  | [] => [p]
  | q :: qs => if compare p.1 q.1 = Ordering.gt then q :: insertField p qs else p :: q :: qs

def sortFields : List (String × Json) → List (String × Json)
  | [] => []
  | p :: ps => insertField p (sortFields ps)

/-- Go `json.Marshal` of a `Request`: fields in struct order, `sort` and
`parameters` dropped when empty (`omitempty`), map keys sorted. -/
def marshalRequest (r : Request) : Json :=
  Json.obj ([("query", Json.str r.Query), ("condition", Json.str r.Condition)]
    ++ (if r.SortVal = "" then [] else [("sort", Json.str r.SortVal)])
    ++ (if r.Parameters.isEmpty then [] else [("parameters", Json.obj (sortFields r.Parameters))]))

/-- The `Client` (Go struct `api.Client`).  The embedded `http.Client` with its
30-second timeout is part of the network model, not of this state. -/
structure Client where
  BaseURL : String
  APIKey : String

/-- An outgoing HTTP request as the Go code builds it: method, target URL,
headers in the order they are set, and the marshalled JSON body. -/
structure HttpReq where
  method : String
  url : String
  headers : List (String × String)
  body : Json

/-- Build the HTTP request exactly as `doRequest`/`doGetRequest` do:
`http.NewRequest(method, c.BaseURL, body)` plus the two headers. -/
def mkHttpReq (method : String) (c : Client) (r : Request) : HttpReq :=
  { method := method
    url := c.BaseURL
    headers := [("Content-Type", "application/json"), ("apikey", c.APIKey)]
    body := marshalRequest r }

/-- One constructor per `fmt.Errorf` site in the Go client. -/
inductive ClientErr : Type where
  /-- Go error "request failed: %w" — the HTTP call itself failed (transport). -/
  | requestFailed : ClientErr
  /-- Go error "failed to parse response: %w" — envelope not decodable. -/
  | parseResponseFailed : ClientErr
  /-- Go error "API error: %s" — envelope status was the sentinel `"Error"`. -/
  | apiErr : String → ClientErr
  /-- Go error "failed to parse ticket data: unexpected response format". -/
  | parseTicketUnexpectedFormat : ClientErr
  /-- Go error "failed to parse ticket data: %w". -/
  | parseTicketDataFailed : ClientErr
  /-- Go error "failed to parse ticket ID: %w". -/
  | parseTicketIDFailed : ClientErr
  /-- Go error "failed to parse user data: %w". -/
  | parseUserDataFailed : ClientErr
  /-- Go error "failed to parse user ID: %w". -/
  | parseUserIDFailed : ClientErr
  /-- Go error "failed to parse department data: %w". -/
  | parseDepartmentDataFailed : ClientErr
  /-- Go error "failed to parse topic data: %w". -/
  | parseTopicDataFailed : ClientErr
  /-- Go error "failed to parse SLA data: %w". -/
  | parseSLADataFailed : ClientErr
  deriving DecidableEq

/-- The network: a reply body (valid JSON) or a transport failure.  Request
marshalling (`json.Marshal` of `Request`) cannot fail, so its error branch in
the Go code is dead in the model. -/
abbrev Net := HttpReq → Option Json

/-- The `Client.doRequest`: POST the envelope, decode the reply into `Response`,
fail on the `"Error"` status sentinel. -/
def doRequest (c : Client) (net : Net) (r : Request) : Except ClientErr Response :=
  match net (mkHttpReq "POST" c r) with
  | none => .error .requestFailed
  | some body =>
    match decodeResponse body with
    | none => .error .parseResponseFailed
    | some resp =>
      if resp.Status = "Error" then .error (.apiErr resp.Message) else .ok resp

/-- The `Client.doGetRequest`: identical to `doRequest` except the method. -/
def doGetRequest (c : Client) (net : Net) (r : Request) : Except ClientErr Response :=
  match net (mkHttpReq "GET" c r) with
  | none => .error .requestFailed
  | some body =>
    match decodeResponse body with
    | none => .error .parseResponseFailed
    | some resp =>
      if resp.Status = "Error" then .error (.apiErr resp.Message) else .ok resp

/-- The request envelope built by `Client.GetTicket`. -/
def getTicketReq (id : String) : Request :=
  { Query := "ticket", Condition := "specific", Parameters := [("id", Json.str id)] }

/-- The three-shape fallback chain of `Client.GetTicket`, applied to the raw
`data` payload (`none` models a nil `json.RawMessage`, which every unmarshal
rejects).  Nested first, then flat (each record wrapped into a singleton
group), then single-object, else the "unexpected response format" error. -/
def getTicketDecode (d : Option Json) : Except ClientErr TicketData :=
  match d.bind decodeTicketData with
  | some data => .ok data
  | none =>
    match d.bind decodeFlatTicketData with
    | some flatData => .ok { Total := flatData.Total, Tickets := flatData.Tickets.map (fun t => [t]) }
    | none =>
      match d.bind decodeSingleTicketData with
      | some singleData => .ok { Total := singleData.Total, Tickets := [[singleData.Ticket]] }
      | none => .error .parseTicketUnexpectedFormat

/-- The `Client.GetTicket`: GET, then the three-shape fallback chain. -/
def GetTicket (c : Client) (net : Net) (id : String) : Except ClientErr TicketData :=
  match doGetRequest c net (getTicketReq id) with
  | .error e => .error e
  | .ok resp => getTicketDecode resp.Data

/-- The request envelope built by `Client.GetTicketsByStatus`. -/
def ticketsByStatusReq (status : Int) : Request :=
  { Query := "ticket", Condition := "all", SortVal := "status"
    Parameters := [("status", Json.num status)] }

/-- The `Client.GetTicketsByStatus`: POST, nested-array decode only. -/
def GetTicketsByStatus (c : Client) (net : Net) (status : Int) : Except ClientErr TicketData :=
  match doRequest c net (ticketsByStatusReq status) with
  | .error e => .error e
  | .ok resp =>
    match resp.Data.bind decodeTicketData with
    | some data => .ok data
    | none => .error .parseTicketDataFailed

/-- The request envelope built by `Client.GetTicketsByDateRange`. -/
def ticketsByDateRangeReq (startDate endDate : String) : Request :=
  { Query := "ticket", Condition := "all", SortVal := "creationDate"
    Parameters := [("start_date", Json.str startDate), ("end_date", Json.str endDate)] }

/-- The `Client.GetTicketsByDateRange`: POST, nested-array decode only. -/
def GetTicketsByDateRange (c : Client) (net : Net) (startDate endDate : String) :
    Except ClientErr TicketData :=
  match doRequest c net (ticketsByDateRangeReq startDate endDate) with
  | .error e => .error e
  | .ok resp =>
    match resp.Data.bind decodeTicketData with
    | some data => .ok data
    | none => .error .parseTicketDataFailed

/-- The `CreateTicketParams` (Go struct `api.CreateTicketParams`). -/
structure CreateTicketParams where
  Title : String
  Subject : String
  UserID : Int
  PriorityID : Int
  StatusID : Int
  DeptID : Int
  SLAID : Int
  TopicID : Int

/-- The request envelope built by `Client.CreateTicket`, parameters in the
source's literal order. -/
def createTicketReq (params : CreateTicketParams) : Request :=
  { Query := "ticket", Condition := "add"
    Parameters :=
      [("title", Json.str params.Title),
       ("subject", Json.str params.Subject),
       ("user_id", Json.num params.UserID),
       ("priority_id", Json.num params.PriorityID),
       ("status_id", Json.num params.StatusID),
       ("dept_id", Json.num params.DeptID),
       ("sla_id", Json.num params.SLAID),
       ("topic_id", Json.num params.TopicID)] }

/-- The `Client.CreateTicket`: POST, decode the payload as the new ticket id. -/
def CreateTicket (c : Client) (net : Net) (params : CreateTicketParams) : Except ClientErr Int :=
  match doRequest c net (createTicketReq params) with
  | .error e => .error e
  | .ok resp =>
    match resp.Data.bind decodeInt with
    | some ticketID => .ok ticketID
    | none => .error .parseTicketIDFailed

/-- The request envelope built by `Client.ReplyToTicket`. -/
def replyToTicketReq (ticketID : Int) (body : String) (staffID : Int) : Request :=
  { Query := "ticket", Condition := "reply"
    Parameters :=
      [("ticket_id", Json.num ticketID), ("body", Json.str body), ("staff_id", Json.num staffID)] }

/-- The `Client.ReplyToTicket`: POST, no payload decoded. -/
def ReplyToTicket (c : Client) (net : Net) (ticketID : Int) (body : String) (staffID : Int) :
    Except ClientErr Unit :=
  match doRequest c net (replyToTicketReq ticketID body staffID) with
  | .error e => .error e
  | .ok _ => .ok ()

/-- The `CloseTicketParams` (Go struct `api.CloseTicketParams`). -/
structure CloseTicketParams where
  TicketID : Int
  Body : String
  StaffID : Int
  StatusID : Int
  TeamID : Int
  DeptID : Int
  TopicID : Int
  Username : String

/-- The request envelope built by `Client.CloseTicket`. -/
def closeTicketReq (params : CloseTicketParams) : Request :=
  { Query := "ticket", Condition := "close"
    Parameters :=
      [("ticket_id", Json.num params.TicketID),
       ("body", Json.str params.Body),
       ("staff_id", Json.num params.StaffID),
       ("status_id", Json.num params.StatusID),
       ("team_id", Json.num params.TeamID),
       ("dept_id", Json.num params.DeptID),
       ("topic_id", Json.num params.TopicID),
       ("username", Json.str params.Username)] }

/-- The `Client.CloseTicket`: POST, no payload decoded. -/
def CloseTicket (c : Client) (net : Net) (params : CloseTicketParams) : Except ClientErr Unit :=
  match doRequest c net (closeTicketReq params) with
  | .error e => .error e
  | .ok _ => .ok ()

/-- The request envelope built by `Client.GetUserByID`. -/
def userByIDReq (id : String) : Request :=
  { Query := "user", Condition := "specific", SortVal := "id"
    Parameters := [("id", Json.str id)] }

/-- The `Client.GetUserByID`: POST, decode `UserData`. -/
def GetUserByID (c : Client) (net : Net) (id : String) : Except ClientErr UserData :=
  match doRequest c net (userByIDReq id) with
  | .error e => .error e
  | .ok resp =>
    match resp.Data.bind decodeUserData with
    | some data => .ok data
    | none => .error .parseUserDataFailed

/-- The request envelope built by `Client.GetUserByEmail`. -/
def userByEmailReq (email : String) : Request :=
  { Query := "user", Condition := "specific", SortVal := "email"
    Parameters := [("email", Json.str email)] }

/-- The `Client.GetUserByEmail`: POST, decode `UserData`. -/
def GetUserByEmail (c : Client) (net : Net) (email : String) : Except ClientErr UserData :=
  match doRequest c net (userByEmailReq email) with
  | .error e => .error e
  | .ok resp =>
    match resp.Data.bind decodeUserData with
    | some data => .ok data
    | none => .error .parseUserDataFailed

/-- The `CreateUserParams` (Go struct `api.CreateUserParams`). -/
structure CreateUserParams where
  Name : String
  Email : String
  Password : String
  Phone : String
  Timezone : String
  OrgID : Int
  DefaultEmailID : Int
  Status : Int

/-- The request envelope built by `Client.CreateUser`. -/
def createUserReq (params : CreateUserParams) : Request :=
  { Query := "user", Condition := "add"
    Parameters :=
      [("name", Json.str params.Name),
       ("email", Json.str params.Email),
       ("password", Json.str params.Password),
       ("phone", Json.str params.Phone),
       ("timezone", Json.str params.Timezone),
       ("org_id", Json.num params.OrgID),
       ("default_email_id", Json.num params.DefaultEmailID),
       ("status", Json.num params.Status)] }

/-- The `Client.CreateUser`: POST, decode the payload as the new user id. -/
def CreateUser (c : Client) (net : Net) (params : CreateUserParams) : Except ClientErr Int :=
  match doRequest c net (createUserReq params) with
  | .error e => .error e
  | .ok resp =>
    match resp.Data.bind decodeInt with
    | some userID => .ok userID
    | none => .error .parseUserIDFailed

/-- The request envelope built by `Client.GetDepartments` (empty, non-nil
parameters map: omitted by `omitempty` all the same). -/
def departmentsReq : Request :=
  { Query := "department", Condition := "all", SortVal := "all", Parameters := [] }

/-- The `Client.GetDepartments`: POST, decode `DepartmentData`. -/
def GetDepartments (c : Client) (net : Net) : Except ClientErr DepartmentData :=
  match doRequest c net departmentsReq with
  | .error e => .error e
  | .ok resp =>
    match resp.Data.bind decodeDepartmentData with
    | some data => .ok data
    | none => .error .parseDepartmentDataFailed

/-- The request envelope built by `Client.GetTopics`. -/
def topicsReq : Request :=
  { Query := "topics", Condition := "all", SortVal := "all", Parameters := [] }

/-- The `Client.GetTopics`: POST, decode `TopicData`. -/
def GetTopics (c : Client) (net : Net) : Except ClientErr TopicData :=
  match doRequest c net topicsReq with
  | .error e => .error e
  | .ok resp =>
    match resp.Data.bind decodeTopicData with
    | some data => .ok data
    | none => .error .parseTopicDataFailed

/-- The request envelope built by `Client.GetSLAs`. -/
def slaReq : Request :=
  { Query := "sla", Condition := "all", SortVal := "all", Parameters := [] }

/-- The `Client.GetSLAs`: POST, decode `SLAData`. -/
def GetSLAs (c : Client) (net : Net) : Except ClientErr SLAData :=
  match doRequest c net slaReq with
  | .error e => .error e
  | .ok resp =>
    match resp.Data.bind decodeSLAData with
    | some data => .ok data
    | none => .error .parseSLADataFailed

/-- The inner loop of `SearchTicketsByEmail`'s filter: scan the group and
`break` at the first record whose `UserID` matches. -/
def groupHasUser (uid : Int) : List Ticket → Bool
  | [] => false
  | t :: ts => if t.UserID == uid then true else groupHasUser uid ts

/-- The outer loop of `SearchTicketsByEmail`'s filter: append each matching
group, keeping order. -/
def filterGroups (uid : Int) : List (List Ticket) → List (List Ticket)
  | [] => []
  | g :: gs => if groupHasUser uid g then g :: filterGroups uid gs else filterGroups uid gs

/-- The `Client.SearchTicketsByEmail`, with Go's three return values
`(*TicketData, *User, error)` modelled positionally (nil pointers as
`none`). -/
def SearchTicketsByEmail (c : Client) (net : Net) (email : String) :
    Option TicketData × Option User × Option ClientErr :=
  match GetUserByEmail c net email with
  | .error e => (none, none, some e)
  | .ok userData =>
    match userData.Users with
    | [] => (some { Total := 0, Tickets := [] }, none, none)
    | user :: _ =>
      match GetTicketsByStatus c net 0 with
      | .error e => (none, some user, some e)
      | .ok allTickets =>
        let filtered := filterGroups user.UserID allTickets.Tickets
        (some { Total := filtered.length, Tickets := filtered }, some user, none)

/-- The observable state the configuration resolver reads: the two
environment variables (`os.Getenv` yields `""` both for unset and for
set-to-empty) and the two values the persisted viper file resolves to
(default `""`). -/
structure ConfigState where
  envBaseURL : String
  envAPIKey : String
  fileBaseURL : String
  fileAPIKey : String

/-- The `config.GetBaseURL`: the environment variable wins when non-empty,
otherwise the persisted value. -/
def GetBaseURL (s : ConfigState) : String :=
  if s.envBaseURL ≠ "" then s.envBaseURL else s.fileBaseURL

/-- The `config.GetAPIKey`: the environment variable wins when non-empty,
otherwise the persisted value. -/
def GetAPIKey (s : ConfigState) : String :=
  if s.envAPIKey ≠ "" then s.envAPIKey else s.fileAPIKey

/-- The `config.IsConfigured`. -/
def IsConfigured (s : ConfigState) : Bool :=
  GetBaseURL s != "" && GetAPIKey s != ""

/-- Field lookup in a JSON object (first occurrence), used by the spec-level
shape predicates and by test networks. -/
def objField (j : Json) (k : String) : Option Json :=
  match j with
  | .obj kvs => List.lookup k kvs
  | _ => none

/-- A "record" in the spec's shape descriptions: a JSON object. -/
def isRecordJson : Json → Bool
  | .obj _ => true
  | _ => false

/-- Modelled from the spec: the nested-array shape
`{total, tickets: [[record...], ...]}` as the spec's words describe it
(an integral `total` and a `tickets` array of arrays of records).  Used only
to state the spec's claim about unrecognized payloads. -/
def specShapeNested (j : Json) : Bool :=
  (match objField j "total" with | some (.num _) => true | _ => false) &&
  (match objField j "tickets" with
   | some (.arr groups) =>
     groups.all (fun g => match g with | .arr recs => recs.all isRecordJson | _ => false)
   | _ => false)

/-- Modelled from the spec: the flat-array shape `{total, tickets: [record, ...]}`. -/
def specShapeFlat (j : Json) : Bool :=
  (match objField j "total" with | some (.num _) => true | _ => false) &&
  (match objField j "tickets" with
   | some (.arr recs) => recs.all isRecordJson
   | _ => false)

/-- Modelled from the spec: the single-object shape `{total, ticket: record}`. -/
def specShapeSingle (j : Json) : Bool :=
  (match objField j "total" with | some (.num _) => true | _ => false) &&
  (match objField j "ticket" with
   | some r => isRecordJson r
   | _ => false)

/-! Concrete fixtures used by the closed sample theorems and witnesses. -/

def cexClient : Client := { BaseURL := "https://tickets.example/api/", APIKey := "k" }

/-- A success envelope around a given data payload. -/
def envWith (d : Json) : Json :=
  Json.obj [("status", Json.str "Success"), ("data", d)]

/-- A network answering every request with the same body. -/
def netConst (j : Json) : Net := fun _ => some j

/-- A ticket record carrying only `user_id = 7`, and its decoded form. -/
def rec7 : Json := Json.obj [("user_id", Json.num 7)]

def rec8 : Json := Json.obj [("user_id", Json.num 8)]

def t7 : Ticket := { UserID := 7 }

def t8 : Ticket := { UserID := 8 }

/-- The same logical content in the three upstream response shapes. -/
def nestedPayload : Json :=
  Json.obj [("total", Json.num 1), ("tickets", Json.arr [Json.arr [rec7]])]

def flatPayload : Json :=
  Json.obj [("total", Json.num 1), ("tickets", Json.arr [rec7])]

def singlePayload : Json :=
  Json.obj [("total", Json.num 1), ("ticket", rec7)]

/-- A payload matching none of the spec's three ticket shapes. -/
def fooPayload : Json := Json.obj [("foo", Json.num 1)]

/-- C1: the spec asserts that the three response shapes with equivalent record
content normalize to the same canonical `{total, tickets: [[...]]}` value.
The code violates this: Go's decoder ignores unknown object keys and defaults
missing ones, so the *first* decode attempt (nested `TicketData`) already
succeeds on a single-object payload `{"total":1,"ticket":{...}}` — the
`ticket` key is ignored and `tickets` defaults to empty — and `GetTicket`
returns `{total:1, tickets:[]}`, silently dropping the record, while the
nested and flat shapes both yield `{total:1, tickets:[[record]]}`.  This
theorem evaluates `GetTicket` on the same record in all three shapes. -/
theorem getTicket_single_object_shape_drops_record :
    GetTicket cexClient (netConst (envWith nestedPayload)) "1" =
      .ok { Total := 1, Tickets := [[t7]] } ∧
    GetTicket cexClient (netConst (envWith flatPayload)) "1" =
      .ok { Total := 1, Tickets := [[t7]] } ∧
    GetTicket cexClient (netConst (envWith singlePayload)) "1" =
      .ok { Total := 1, Tickets := [] } :=
  ⟨by rfl, by rfl, by rfl⟩

/-- C2 (counterexample): the payload `{"foo":1}` matches none of the spec's
three ticket shapes, yet `GetTicket` does not fail with the FormatError — the
nested decode accepts this object (its unknown key is ignored and its missing
fields are defaulted), so the call returns the success value
`{total:0, tickets:[]}`. -/
theorem getTicket_unmatched_shape_counterexample :
    specShapeNested fooPayload = false ∧
    specShapeFlat fooPayload = false ∧
    specShapeSingle fooPayload = false ∧
    GetTicket cexClient (netConst (envWith fooPayload)) "1" =
      .ok { Total := 0, Tickets := [] } :=
  ⟨by rfl, by rfl, by rfl, by rfl⟩

/-- C2 (amended): `GetTicket`'s post-envelope processing fails with the
"unexpected response format" error exactly when all three Go decode attempts
(nested `TicketData`, flat, single-object) fail on the raw `data` payload; no
fourth shape is ever guessed.  Failing all three decodes is not the same as
matching none of the spec's three shapes: `{"foo":1}` matches no shape yet
satisfies the first decode, while the object `{"total":"abc"}` fails all
three. -/
theorem getTicket_formatError_iff_all_decodes_fail (d : Option Json) :
    getTicketDecode d = .error ClientErr.parseTicketUnexpectedFormat ↔
      d.bind decodeTicketData = none ∧ d.bind decodeFlatTicketData = none ∧
        d.bind decodeSingleTicketData = none := by
  unfold getTicketDecode
  cases hd : d.bind decodeTicketData with
  | some x => simp [hd]
  | none =>
    cases hf : d.bind decodeFlatTicketData with
    | some y => simp [hf]
    | none =>
      cases hs : d.bind decodeSingleTicketData with
      | some z => simp [hs]
      | none => simp [hs]

/-- C3: whenever the HTTP reply decodes to an envelope whose `status` is the
sentinel `"Error"`, both `doRequest` and `doGetRequest` (through which every
operation performs its call) return the API error carrying the envelope's
`message`, regardless of the `data` field; the network is consulted exactly
once, so no retry occurs. -/
theorem doRequest_error_status_yields_apiError :
    ∀ (c : Client) (net : Net) (r : Request) (body : Json) (resp : Response),
    (net (mkHttpReq "POST" c r) = some body → decodeResponse body = some resp →
      resp.Status = "Error" → doRequest c net r = .error (.apiErr resp.Message)) ∧
    (net (mkHttpReq "GET" c r) = some body → decodeResponse body = some resp →
      resp.Status = "Error" → doGetRequest c net r = .error (.apiErr resp.Message)) := by
  intro c net r body resp
  constructor <;> intro h1 h2 h3 <;> simp [doRequest, doGetRequest, h1, h2, h3]

def errEnvelope : Json := Json.obj [("status", Json.str "Error"), ("message", Json.str "boom")]

def errNet : Net := fun _ => some errEnvelope

def errResp : Response := { Status := "Error", Message := "boom" }

/-- Witness for C3 at a concrete error envelope. -/
theorem doRequest_error_status_yields_apiError_witness :
    doRequest cexClient errNet departmentsReq = .error (.apiErr "boom") ∧
    doGetRequest cexClient errNet (getTicketReq "1") = .error (.apiErr "boom") :=
  ⟨(doRequest_error_status_yields_apiError cexClient errNet departmentsReq errEnvelope errResp).1
      rfl (by rfl) rfl,
   (doRequest_error_status_yields_apiError cexClient errNet (getTicketReq "1") errEnvelope errResp).2
      rfl (by rfl) rfl⟩

/-- C4: when the user lookup succeeds with zero users, the composite email
search returns the empty collection `{total:0, tickets:[]}` and a nil user
with a nil error.  The result is fully determined by the user lookup alone —
whatever `net` answers for the all-tickets listing (the same `net` is
universally quantified here), that second call cannot influence the result,
which models that the listing is not consulted. -/
theorem searchTicketsByEmail_empty_user_lookup (c : Client) (net : Net) (email : String)
    (ud : UserData) (hu : GetUserByEmail c net email = .ok ud) (hempty : ud.Users = []) :
    SearchTicketsByEmail c net email = (some { Total := 0, Tickets := [] }, none, none) := by
  simp [SearchTicketsByEmail, hu, hempty]

def emptyUsersNet : Net :=
  netConst (envWith (Json.obj [("total", Json.num 0), ("users", Json.arr [])]))

/-- Witness for C4 at a concrete empty user lookup. -/
theorem searchTicketsByEmail_empty_user_lookup_witness :
    SearchTicketsByEmail cexClient emptyUsersNet "a@b.c" =
      (some { Total := 0, Tickets := [] }, none, none) :=
  searchTicketsByEmail_empty_user_lookup cexClient emptyUsersNet "a@b.c"
    { Total := 0, Users := [] } (by rfl) rfl

/-- C5: for each configuration key, a non-empty environment variable wins over
any persisted content, and with the environment variable unset (or empty — Go
`os.Getenv` cannot distinguish the two) the persisted value is returned. -/
theorem config_env_precedence (s : ConfigState) :
    (s.envBaseURL ≠ "" → GetBaseURL s = s.envBaseURL) ∧
    (s.envBaseURL = "" → GetBaseURL s = s.fileBaseURL) ∧
    (s.envAPIKey ≠ "" → GetAPIKey s = s.envAPIKey) ∧
    (s.envAPIKey = "" → GetAPIKey s = s.fileAPIKey) := by
  refine ⟨fun h => ?_, fun h => ?_, fun h => ?_, fun h => ?_⟩ <;>
    simp [GetBaseURL, GetAPIKey, h]

/-- Witness for C5 at the spec's own example values. -/
theorem config_env_precedence_witness :
    GetBaseURL { envBaseURL := "", envAPIKey := "", fileBaseURL := "https://x",
                 fileAPIKey := "" } = "https://x" ∧
    GetBaseURL { envBaseURL := "https://y", envAPIKey := "", fileBaseURL := "https://x",
                 fileAPIKey := "" } = "https://y" :=
  ⟨(config_env_precedence _).2.1 rfl, (config_env_precedence _).1 (by decide)⟩

/-- C6: `IsConfigured` is true iff both resolved values are non-empty (and in
particular false whenever either resolved field is the empty string). -/
theorem isConfigured_iff_both_nonempty (s : ConfigState) :
    IsConfigured s = true ↔ (GetBaseURL s ≠ "" ∧ GetAPIKey s ≠ "") := by
  simp [IsConfigured]

/-- C7: `CreateTicket`'s typed parameters map one-to-one onto the request
envelope's `parameters` keys exactly as named, values passed through
unchanged; and across marshalling the wire body carries exactly those eight
keys (in `encoding/json`'s sorted map order), none renamed, added or
dropped. -/
theorem createTicket_parameter_mapping (params : CreateTicketParams) :
    (createTicketReq params).Query = "ticket" ∧
    (createTicketReq params).Condition = "add" ∧
    (createTicketReq params).Parameters =
      [("title", Json.str params.Title),
       ("subject", Json.str params.Subject),
       ("user_id", Json.num params.UserID),
       ("priority_id", Json.num params.PriorityID),
       ("status_id", Json.num params.StatusID),
       ("dept_id", Json.num params.DeptID),
       ("sla_id", Json.num params.SLAID),
       ("topic_id", Json.num params.TopicID)] ∧
    objField (marshalRequest (createTicketReq params)) "parameters" =
      some (Json.obj
        [("dept_id", Json.num params.DeptID),
         ("priority_id", Json.num params.PriorityID),
         ("sla_id", Json.num params.SLAID),
         ("status_id", Json.num params.StatusID),
         ("subject", Json.str params.Subject),
         ("title", Json.str params.Title),
         ("topic_id", Json.num params.TopicID),
         ("user_id", Json.num params.UserID)]) :=
  ⟨rfl, rfl, rfl, rfl⟩

/-- C8: the listings by status and by date range decode the payload assuming
the nested-array shape only: a payload whose nested decode succeeds is
returned as-is, and a payload whose nested decode fails yields the decode
error immediately — the flat-array and single-object fallbacks are never
consulted, whatever the payload. -/
theorem listings_nested_shape_only :
    ∀ (c : Client) (net : Net) (status : Int) (sd ed : String) (resp resp' : Response),
    (doRequest c net (ticketsByStatusReq status) = .ok resp →
      (∀ td, resp.Data.bind decodeTicketData = some td →
          GetTicketsByStatus c net status = .ok td) ∧
      (resp.Data.bind decodeTicketData = none →
          GetTicketsByStatus c net status = .error .parseTicketDataFailed)) ∧
    (doRequest c net (ticketsByDateRangeReq sd ed) = .ok resp' →
      (∀ td, resp'.Data.bind decodeTicketData = some td →
          GetTicketsByDateRange c net sd ed = .ok td) ∧
      (resp'.Data.bind decodeTicketData = none →
          GetTicketsByDateRange c net sd ed = .error .parseTicketDataFailed)) := by
  intro c net status sd ed resp resp'
  constructor
  · intro h
    exact ⟨fun td htd => by simp [GetTicketsByStatus, h, htd],
           fun hn => by simp [GetTicketsByStatus, h, hn]⟩
  · intro h
    exact ⟨fun td htd => by simp [GetTicketsByDateRange, h, htd],
           fun hn => by simp [GetTicketsByDateRange, h, hn]⟩

/-- A network always answering with the flat-array payload — decodable by the
`GetTicket` fallback chain, but not by the nested-only listings. -/
def flatNet : Net := netConst (envWith flatPayload)

def flatResp : Response := { Status := "Success", Data := some flatPayload }

/-- Witness for C8: the flat-array payload makes both listings fail even
though `GetTicket`'s fallback chain would accept it. -/
theorem listings_nested_shape_only_witness :
    GetTicketsByStatus cexClient flatNet 0 = .error .parseTicketDataFailed ∧
    GetTicketsByDateRange cexClient flatNet "2020-01-01" "2020-12-31" =
      .error .parseTicketDataFailed :=
  ⟨((listings_nested_shape_only cexClient flatNet 0 "2020-01-01" "2020-12-31"
      flatResp flatResp).1 (by rfl)).2 (by rfl),
   ((listings_nested_shape_only cexClient flatNet 0 "2020-01-01" "2020-12-31"
      flatResp flatResp).2 (by rfl)).2 (by rfl)⟩

/-- Two networks agree on every request of the given method carrying the
client's URL and the standard header pair (`Content-Type: application/json`,
`apikey`).  An operation insensitive to everything outside this set issues
only such requests. -/
def AgreesOn (method : String) (c : Client) (net net' : Net) : Prop :=
  ∀ hr : HttpReq, hr.method = method → hr.url = c.BaseURL →
    hr.headers = [("Content-Type", "application/json"), ("apikey", c.APIKey)] →
    net hr = net' hr

theorem doRequest_congr {c : Client} {net net' : Net} (h : AgreesOn "POST" c net net')
    (r : Request) : doRequest c net r = doRequest c net' r := by
  unfold doRequest
  rw [h (mkHttpReq "POST" c r) rfl rfl rfl]

theorem doGetRequest_congr {c : Client} {net net' : Net} (h : AgreesOn "GET" c net net')
    (r : Request) : doGetRequest c net r = doGetRequest c net' r := by
  unfold doGetRequest
  rw [h (mkHttpReq "GET" c r) rfl rfl rfl]

theorem GetTicket_congr {c : Client} {net net' : Net} (h : AgreesOn "GET" c net net')
    (id : String) : GetTicket c net id = GetTicket c net' id := by
  unfold GetTicket
  rw [doGetRequest_congr h]

theorem GetTicketsByStatus_congr {c : Client} {net net' : Net} (h : AgreesOn "POST" c net net')
    (status : Int) : GetTicketsByStatus c net status = GetTicketsByStatus c net' status := by
  unfold GetTicketsByStatus
  rw [doRequest_congr h]

theorem GetTicketsByDateRange_congr {c : Client} {net net' : Net} (h : AgreesOn "POST" c net net')
    (sd ed : String) : GetTicketsByDateRange c net sd ed = GetTicketsByDateRange c net' sd ed := by
  unfold GetTicketsByDateRange
  rw [doRequest_congr h]

theorem CreateTicket_congr {c : Client} {net net' : Net} (h : AgreesOn "POST" c net net')
    (params : CreateTicketParams) : CreateTicket c net params = CreateTicket c net' params := by
  unfold CreateTicket
  rw [doRequest_congr h]

theorem ReplyToTicket_congr {c : Client} {net net' : Net} (h : AgreesOn "POST" c net net')
    (tid : Int) (body : String) (staffID : Int) :
    ReplyToTicket c net tid body staffID = ReplyToTicket c net' tid body staffID := by
  unfold ReplyToTicket
  rw [doRequest_congr h]

theorem CloseTicket_congr {c : Client} {net net' : Net} (h : AgreesOn "POST" c net net')
    (params : CloseTicketParams) : CloseTicket c net params = CloseTicket c net' params := by
  unfold CloseTicket
  rw [doRequest_congr h]

theorem GetUserByID_congr {c : Client} {net net' : Net} (h : AgreesOn "POST" c net net')
    (id : String) : GetUserByID c net id = GetUserByID c net' id := by
  unfold GetUserByID
  rw [doRequest_congr h]

theorem GetUserByEmail_congr {c : Client} {net net' : Net} (h : AgreesOn "POST" c net net')
    (email : String) : GetUserByEmail c net email = GetUserByEmail c net' email := by
  unfold GetUserByEmail
  rw [doRequest_congr h]

theorem CreateUser_congr {c : Client} {net net' : Net} (h : AgreesOn "POST" c net net')
    (params : CreateUserParams) : CreateUser c net params = CreateUser c net' params := by
  unfold CreateUser
  rw [doRequest_congr h]

theorem GetDepartments_congr {c : Client} {net net' : Net} (h : AgreesOn "POST" c net net') :
    GetDepartments c net = GetDepartments c net' := by
  unfold GetDepartments
  rw [doRequest_congr h]

theorem GetTopics_congr {c : Client} {net net' : Net} (h : AgreesOn "POST" c net net') :
    GetTopics c net = GetTopics c net' := by
  unfold GetTopics
  rw [doRequest_congr h]

theorem GetSLAs_congr {c : Client} {net net' : Net} (h : AgreesOn "POST" c net net') :
    GetSLAs c net = GetSLAs c net' := by
  unfold GetSLAs
  rw [doRequest_congr h]

theorem SearchTicketsByEmail_congr {c : Client} {net net' : Net} (h : AgreesOn "POST" c net net')
    (email : String) : SearchTicketsByEmail c net email = SearchTicketsByEmail c net' email := by
  unfold SearchTicketsByEmail
  rw [GetUserByEmail_congr h, GetTicketsByStatus_congr h]

/-- C9: the HTTP method is determined by the operation — ticket
retrieval-by-identifier depends on the network only through GET requests
carrying the client's URL, the `apikey` header and
`Content-Type: application/json`, and every other operation (listings,
create, reply, close, user operations, departments/topics/SLAs, and both
calls of the composite email search) only through POST requests carrying the
same URL and headers.  Changing the network anywhere outside that set cannot
change the operation's result. -/
theorem http_method_and_headers_per_operation :
    ∀ (c : Client) (net net' : Net) (id email sd ed body : String)
      (status tid staffID : Int) (tp : CreateTicketParams) (cp : CloseTicketParams)
      (up : CreateUserParams),
    (AgreesOn "GET" c net net' → GetTicket c net id = GetTicket c net' id) ∧
    (AgreesOn "POST" c net net' →
      GetTicketsByStatus c net status = GetTicketsByStatus c net' status ∧
      GetTicketsByDateRange c net sd ed = GetTicketsByDateRange c net' sd ed ∧
      CreateTicket c net tp = CreateTicket c net' tp ∧
      ReplyToTicket c net tid body staffID = ReplyToTicket c net' tid body staffID ∧
      CloseTicket c net cp = CloseTicket c net' cp ∧
      GetUserByID c net id = GetUserByID c net' id ∧
      GetUserByEmail c net email = GetUserByEmail c net' email ∧
      CreateUser c net up = CreateUser c net' up ∧
      GetDepartments c net = GetDepartments c net' ∧
      GetTopics c net = GetTopics c net' ∧
      GetSLAs c net = GetSLAs c net' ∧
      SearchTicketsByEmail c net email = SearchTicketsByEmail c net' email) := by
  intro c net net' id email sd ed body status tid staffID tp cp up
  exact ⟨fun h => GetTicket_congr h id,
    fun h =>
      ⟨GetTicketsByStatus_congr h status, GetTicketsByDateRange_congr h sd ed,
       CreateTicket_congr h tp, ReplyToTicket_congr h tid body staffID,
       CloseTicket_congr h cp, GetUserByID_congr h id, GetUserByEmail_congr h email,
       CreateUser_congr h up, GetDepartments_congr h, GetTopics_congr h,
       GetSLAs_congr h, SearchTicketsByEmail_congr h email⟩⟩

/-- A network answering junk on POST requests and failing on everything else. -/
def postJunkNet : Net := fun hr => if hr.method = "POST" then some (Json.str "junk") else none

/-- A network answering junk on GET requests and failing on everything else. -/
def getJunkNet : Net := fun hr => if hr.method = "GET" then some (Json.str "junk") else none

/-- A dead network. -/
def downNet : Net := fun _ => none

def tpW : CreateTicketParams :=
  { Title := "t", Subject := "s", UserID := 1, PriorityID := 1, StatusID := 1,
    DeptID := 1, SLAID := 1, TopicID := 1 }

def cpW : CloseTicketParams :=
  { TicketID := 1, Body := "b", StaffID := 1, StatusID := 1, TeamID := 1,
    DeptID := 1, TopicID := 1, Username := "u" }

def upW : CreateUserParams :=
  { Name := "n", Email := "e", Password := "p", Phone := "ph", Timezone := "tz",
    OrgID := 1, DefaultEmailID := 1, Status := 1 }

/-- Witness for C9: `GetTicket` cannot observe POST-only behaviour, and
`GetDepartments` cannot observe GET-only behaviour. -/
theorem http_method_and_headers_per_operation_witness :
    GetTicket cexClient postJunkNet "1" = GetTicket cexClient downNet "1" ∧
    GetDepartments cexClient getJunkNet = GetDepartments cexClient downNet := by
  constructor
  · exact (http_method_and_headers_per_operation cexClient postJunkNet downNet
      "1" "e" "s" "d" "b" 0 0 0 tpW cpW upW).1
      (fun hr h1 _ _ => by simp [postJunkNet, downNet, h1])
  · exact (((http_method_and_headers_per_operation cexClient getJunkNet downNet
      "1" "e" "s" "d" "b" 0 0 0 tpW cpW upW).2
      (fun hr h1 _ _ => by simp [getJunkNet, downNet, h1])).2.2.2.2.2.2.2.2.1)

theorem groupHasUser_eq_any (uid : Int) (g : List Ticket) :
    groupHasUser uid g = g.any (fun t => t.UserID == uid) := by
  induction g with
  | nil => rfl
  | cons t ts ih => cases h : (t.UserID == uid) <;> simp [groupHasUser, h, ih]

theorem filterGroups_eq_filter (uid : Int) (gs : List (List Ticket)) :
    filterGroups uid gs = gs.filter (fun g => g.any (fun t => t.UserID == uid)) := by
  induction gs with
  | nil => rfl
  | cons g gs ih =>
    simp only [filterGroups, List.filter_cons, ← groupHasUser_eq_any, ih]

/-- C10: with a successful user lookup (matched user = first user returned)
and a successful all-tickets listing, the composite email search returns
exactly the groups of the listing containing at least one record with the
matched user's id — whole, unmodified and in their original order — with
`total` equal to the number of returned groups (not the server-reported
total, which is discarded). -/
theorem searchTicketsByEmail_filters_groups_by_user (c : Client) (net : Net) (email : String)
    (ud : UserData) (u : User) (us : List User) (td : TicketData)
    (hu : GetUserByEmail c net email = .ok ud) (husers : ud.Users = u :: us)
    (ht : GetTicketsByStatus c net 0 = .ok td) :
    SearchTicketsByEmail c net email =
      (some { Total := (td.Tickets.filter (fun g => g.any (fun t => t.UserID == u.UserID))).length,
              Tickets := td.Tickets.filter (fun g => g.any (fun t => t.UserID == u.UserID)) },
       some u, none) := by
  simp [SearchTicketsByEmail, hu, husers, ht, filterGroups_eq_filter]

def usersPayload : Json :=
  Json.obj [("total", Json.num 1),
    ("users", Json.arr [Json.obj
      [("user_id", Json.num 7), ("name", Json.str "Alice"), ("created", Json.str "2020-01-01")]])]

def groupsPayload : Json :=
  Json.obj [("total", Json.num 99),
    ("tickets", Json.arr [Json.arr [rec7], Json.arr [rec8], Json.arr [rec8, rec7]])]

/-- A network serving the user lookup and the all-tickets listing, routed on
the envelope's `query` field. -/
def searchNet : Net := fun hr =>
  match objField hr.body "query" with
  | some (Json.str "user") => some (envWith usersPayload)
  | some (Json.str "ticket") => some (envWith groupsPayload)
  | _ => none

def userAlice : User := { UserID := 7, Name := "Alice", Created := "2020-01-01" }

/-- Witness for C10: of the three groups `[[7], [8], [8, 7]]` (by `user_id`),
the search for Alice (`user_id = 7`) keeps the first and third whole and in
order, and reports `total = 2` although the server said 99. -/
theorem searchTicketsByEmail_filters_groups_by_user_witness :
    SearchTicketsByEmail cexClient searchNet "a@b.c" =
      (some { Total := 2, Tickets := [[t7], [t8, t7]] }, some userAlice, none) := by
  have h := searchTicketsByEmail_filters_groups_by_user cexClient searchNet "a@b.c"
    { Total := 1, Users := [userAlice] } userAlice []
    { Total := 99, Tickets := [[t7], [t8], [t8, t7]] } (by rfl) rfl (by rfl)
  rw [h]
  rfl
